import Mathlib

/-!
Shallow embedding of `cli/src/credential.rs` from the didkit repository.

Each CLI entry point (`issue`, `verify`, `get_nquad_positions`) is modelled as a
pure function from an environment record to a pair of an observable event trace
and a terminal outcome.  The environment carries the content of the input
channel and oracle functions standing for the external collaborators
(JSON deserialization, `validate_unsigned`, `verify_jwt`, `verify`,
`generate_jwt`, `generate_proof`, `get_nquad_positions`, serialization), which
live outside the shown source.  Rust `unwrap`/`todo!` failures become the
`Outcome.panicked` terminal outcome; `std::process::exit(2)` becomes
`Outcome.exitCode 2`; the `?` propagation in the query path becomes
`Outcome.err`.
-/

namespace DidkitCli

/-- Proof format tag dispatched on by `issue` and `verify`.  The source
matches on `ProofFormat::JWT`, `ProofFormat::LDP` and a catch-all `_` arm;
`Other` stands for any value hitting the catch-all arm. -/
inductive ProofFormat
  | JWT
  | LDP
  | Other (tag : String)
  deriving DecidableEq

/-- A verifiable credential, abstracted to an opaque body (all content other
than the proof block) plus a list of attached proofs. -/
structure VerifiableCredential where
  body : String
  proofs : List String
  deriving DecidableEq

/-- Modelled from the spec: `VerifiableCredential::add_proof` lives in the
ssi library, not under the shown source.  The spec says issue "attaches it as
an embedded proof block on the credential; output is the credential document
itself (JSON), now carrying one proof", so `add_proof` appends the new proof
and leaves everything else unchanged. -/
def VerifiableCredential.add_proof (c : VerifiableCredential) (p : String) :
    VerifiableCredential :=
  { c with proofs := c.proofs ++ [p] }

/-- Verification result produced by the verify oracles: ordered checks,
warnings and errors, mirroring ssi's `VerificationResult`. -/
structure VerificationResult where
  checks : List String
  warnings : List String
  errors : List String
  deriving DecidableEq

/-- Observable events of one CLI invocation, in program order:  reading the
input channel, writing to stdout or stderr, emitting a tracing warning, and
invoking the cryptographic sign or proof-check collaborator. -/
inductive Event
  | readStdin
  | writeStdout (s : String)
  | writeStderr (s : String)
  | warnLog (s : String)
  | sign
  | checkProof
  deriving DecidableEq

/-- Terminal outcome of one CLI invocation:  normal return (`Ok(())`),
explicit process exit with a code, a Rust panic (from `unwrap`, `todo!` or
`panic!`), or an error propagated with `?`. -/
inductive Outcome
  | ok
  | exitCode (n : Nat)
  | panicked (msg : String)
  | err (msg : String)
  deriving DecidableEq

/-- Rust `char::is_whitespace`: the Unicode `White_Space` property. -/
def isRustWhitespace (c : Char) : Bool :=
  c.toNat = 0x20 || (0x09 ≤ c.toNat && c.toNat ≤ 0x0D) || c.toNat = 0x85 ||
  c.toNat = 0xA0 || c.toNat = 0x1680 ||
  (0x2000 ≤ c.toNat && c.toNat ≤ 0x200A) ||
  c.toNat = 0x2028 || c.toNat = 0x2029 || c.toNat = 0x202F ||
  c.toNat = 0x205F || c.toNat = 0x3000

/-- Removal of leading whitespace (Rust `str::trim_start`). -/
def trimStart (l : List Char) : List Char := l.dropWhile isRustWhitespace

/-- Removal of trailing whitespace (Rust `str::trim_end`). -/
def trimEnd (l : List Char) : List Char :=
  (l.reverse.dropWhile isRustWhitespace).reverse

/-- Rust `str::trim`: leading and trailing whitespace removed. -/
def rustTrim (l : List Char) : List Char := trimEnd (trimStart l)

/-- Environment of one `verify` invocation: input-channel content and the
oracles for the collaborator calls made by `verify`. -/
structure VerifyEnv where
  stdinContent : List Char
  parseCredential : List Char → Option VerifiableCredential
  validateUnsigned : VerifiableCredential → Bool
  verifyJwt : List Char → VerificationResult
  verifyLdp : VerifiableCredential → VerificationResult
  serializeResult : VerificationResult → String

/-- Advisory logged by `verify` when trimming changed the JWT input. -/
def trimWarning : String :=
  "JWT was trimmed for extraneous whitespaces and new lines."

/-- The `match proof_format` expression of `verify` (credential.rs lines
158-186): it yields the events performed inside the match together with
either the computed `VerificationResult` or the panic message of an abort. -/
def verifyCore (env : VerifyEnv) (pf : ProofFormat) :
    List Event × Except String VerificationResult :=
  match pf with
  | .JWT =>
      let jwt := env.stdinContent
      let trimmed := rustTrim jwt
      let warnEvents : List Event :=
        if jwt ≠ trimmed then [.warnLog trimWarning] else []
      ([.readStdin] ++ warnEvents ++ [.checkProof], .ok (env.verifyJwt trimmed))
  | .LDP =>
      match env.parseCredential env.stdinContent with
      | none => ([.readStdin], .error "credential deserialization failed")
      | some credential =>
          if env.validateUnsigned credential then
            ([.readStdin, .checkProof], .ok (env.verifyLdp credential))
          else
            ([.readStdin], .error "MalformedCredential")
  | .Other tag => ([], .error ("Unknown proof format: " ++ tag))

/-- Exit behaviour after serializing the result (credential.rs lines
190-193): exit code 2 when the error list is non-empty, normal return
otherwise. -/
def emitOutcome (r : VerificationResult) : Outcome :=
  if r.errors.isEmpty then .ok else .exitCode 2

/-- Model of `verify` (credential.rs lines 152-194): run the format dispatch, then
serialize the result to stdout and exit with code 2 when it holds errors. -/
def verify (env : VerifyEnv) (pf : ProofFormat) : List Event × Outcome :=
  match verifyCore env pf with
  | (evs, .error msg) => (evs, .panicked msg)
  | (evs, .ok r) =>
      (evs ++ [.writeStdout (env.serializeResult r)], emitOutcome r)

/-- Environment of one `issue` invocation. -/
structure IssueEnv where
  stdinContent : List Char
  parseCredential : List Char → Option VerifiableCredential
  sshAgent : Bool
  generateJwt : VerifiableCredential → Option String
  generateProof : VerifiableCredential → Option String
  serializeCredential : VerifiableCredential → String

/-- Model of `issue` (credential.rs lines 70-114): the credential is read and parsed
from stdin before the format dispatch; the JWT arm rejects ssh-agent key
delivery with `todo!` before calling `generate_jwt`; the LDP arm attaches the
generated proof and serializes the credential to stdout; any other format
hits the catch-all arm. -/
def issue (env : IssueEnv) (pf : ProofFormat) : List Event × Outcome :=
  match env.parseCredential env.stdinContent with
  | none => ([.readStdin], .panicked "credential deserialization failed")
  | some credential =>
      match pf with
      | .JWT =>
          if env.sshAgent then
            ([.readStdin], .panicked "not yet implemented: ssh-agent for JWT not implemented")
          else
            match env.generateJwt credential with
            | none => ([.readStdin, .sign], .panicked "generate_jwt failed")
            | some jwt => ([.readStdin, .sign, .writeStdout jwt], .ok)
      | .LDP =>
          match env.generateProof credential with
          | none => ([.readStdin, .sign], .panicked "generate_proof failed")
          | some proof =>
              ([.readStdin, .sign,
                .writeStdout (env.serializeCredential (credential.add_proof proof))],
               .ok)
      | .Other tag => ([.readStdin], .panicked ("Unknown proof format: " ++ tag))

/-- Environment of one `Query` invocation. -/
structure QueryEnv where
  stdinContent : List Char
  parseCredential : List Char → Option VerifiableCredential
  nquadPositions : VerifiableCredential → List String → Except String (List Nat)

/-- Model of `get_nquad_positions` (credential.rs lines 116-131): an empty selector
list prints a notice to stderr and returns before touching stdin; otherwise
the credential is parsed, the positions resolved, and the decimal renderings
joined with single spaces and printed (with the trailing newline of
`println!`). -/
def get_nquad_positions (env : QueryEnv) (selectors : List String) :
    List Event × Outcome :=
  if selectors.length = 0 then
    ([.writeStderr "No selectors given"], .ok)
  else
    match env.parseCredential env.stdinContent with
    | none => ([.readStdin], .panicked "credential deserialization failed")
    | some credential =>
        match env.nquadPositions credential selectors with
        | .error msg => ([.readStdin], .err msg)
        | .ok positions =>
            ([.readStdin,
              .writeStdout
                (String.intercalate " " (positions.map (fun p => Nat.repr p)) ++ "\n")],
             .ok)

/-- Dropping while a predicate holds is idempotent. -/
theorem dropWhile_idem (p : Char → Bool) (l : List Char) :
    (l.dropWhile p).dropWhile p = l.dropWhile p := by
  induction l with
  | nil => rfl
  | cons a t ih =>
      by_cases h : p a
      · simp [List.dropWhile_cons, h, ih]
      · simp [List.dropWhile_cons, h]

/-- If a list survives `dropWhile` unchanged, its head fails the predicate. -/
theorem dropWhile_self_head_false (p : Char → Bool) (a : Char) (t : List Char)
    (h : (a :: t).dropWhile p = a :: t) : p a = false := by
  by_contra hcon
  have hpa : p a = true := by
    cases hb : p a with
    | false => exact absurd hb hcon
    | true => rfl
  rw [List.dropWhile_cons_of_pos hpa] at h
  have hsub := (List.dropWhile_sublist (l := t) p).length_le
  have hlen := congrArg List.length h
  simp at hlen
  omega

/-- Idempotence of `trimStart`. -/
theorem trimStart_idem (l : List Char) : trimStart (trimStart l) = trimStart l :=
  dropWhile_idem isRustWhitespace l

/-- Idempotence of `trimEnd`. -/
theorem trimEnd_idem (l : List Char) : trimEnd (trimEnd l) = trimEnd l := by
  unfold trimEnd
  rw [List.reverse_reverse, dropWhile_idem]

/-- Trimming the end of a list with no leading whitespace leaves a list with
no leading whitespace. -/
theorem trimStart_trimEnd (l : List Char) (h : trimStart l = l) :
    trimStart (trimEnd l) = trimEnd l := by
  cases l with
  | nil => rfl
  | cons a t =>
      have ha : isRustWhitespace a = false :=
        dropWhile_self_head_false isRustWhitespace a t h
      unfold trimEnd trimStart
      rw [List.reverse_cons, List.dropWhile_append]
      by_cases he : (t.reverse.dropWhile isRustWhitespace).isEmpty
      · simp only [he, if_pos]
        simp [List.dropWhile_cons, ha]
      · simp only [he, if_neg, Bool.false_eq_true, not_false_iff]
        rw [List.reverse_append]
        simp [List.dropWhile_cons_of_neg, ha]

/-- Rust `str::trim` is idempotent. -/
theorem rustTrim_idem (l : List Char) : rustTrim (rustTrim l) = rustTrim l := by
  unfold rustTrim
  rw [trimStart_trimEnd (trimStart l) (trimStart_idem l), trimEnd_idem]

/-- Sample credential used by the concrete environments below. -/
def exCredential : VerifiableCredential := { body := "cred-body", proofs := ["old-proof"] }

/-- Sample passing result: warnings present, no errors. -/
def exPassResult : VerificationResult :=
  { checks := ["proof"], warnings := ["w1", "w2"], errors := [] }

/-- Sample failing result: one error. -/
def exFailResult : VerificationResult :=
  { checks := ["proof"], warnings := [], errors := ["signature mismatch"] }

/-- Concrete verify environment: JWT input padded with whitespace, passing
JWT verification, failing LDP verification. -/
def exVerifyEnv : VerifyEnv :=
  { stdinContent := "  token ".toList
    parseCredential := fun _ => some exCredential
    validateUnsigned := fun _ => true
    verifyJwt := fun _ => exPassResult
    verifyLdp := fun _ => exFailResult
    serializeResult := fun r => String.intercalate ";" r.errors }

/-- Concrete verify environment whose structural validation fails. -/
def exVerifyEnvBad : VerifyEnv := { exVerifyEnv with validateUnsigned := fun _ => false }

/-- Concrete issue environment with inline key material. -/
def exIssueEnv : IssueEnv :=
  { stdinContent := "cred-body".toList
    parseCredential := fun _ => some exCredential
    sshAgent := false
    generateJwt := fun _ => some "header.payload.sig"
    generateProof := fun _ => some "new-proof"
    serializeCredential := fun c => String.intercalate "|" (c.body :: c.proofs) }

/-- Concrete issue environment with ssh-agent key delivery. -/
def exIssueEnvAgent : IssueEnv := { exIssueEnv with sshAgent := true }

/-- Concrete query environment resolving three positions. -/
def exQueryEnv : QueryEnv :=
  { stdinContent := "cred-body".toList
    parseCredential := fun _ => some exCredential
    nquadPositions := fun _ _ => .ok [3, 1, 4] }

/-- Claim C1: for every Verify invocation (either proof format) that reaches
the aggregation stage with result `r`, the serialized result is emitted on
stdout, the invocation signals the distinguishable failing exit condition
(exit code 2) exactly when the error sequence of `r` is non-empty, and the
exit outcome depends only on the error sequence, never on the warnings. -/
theorem c1_verify_exit_iff_errors (env : VerifyEnv) (pf : ProofFormat)
    (evs : List Event) (r : VerificationResult)
    (h : verifyCore env pf = (evs, .ok r)) :
    Event.writeStdout (env.serializeResult r) ∈ (verify env pf).1 ∧
    ((verify env pf).2 = Outcome.exitCode 2 ↔ r.errors ≠ []) ∧
    emitOutcome r = emitOutcome { checks := [], warnings := [], errors := r.errors } := by
  unfold verify
  rw [h]
  refine ⟨List.mem_append_right _ (List.mem_singleton.mpr rfl), ?_, rfl⟩
  unfold emitOutcome
  by_cases he : r.errors = []
  · simp [he]
  · simp [he, List.isEmpty_iff]

/-- Witness for C1 at a concrete JWT invocation with a passing result. -/
theorem c1_witness :
    verifyCore exVerifyEnv .JWT =
      ([Event.readStdin, Event.warnLog trimWarning, Event.checkProof], .ok exPassResult) ∧
    (Event.writeStdout (exVerifyEnv.serializeResult exPassResult) ∈
        (verify exVerifyEnv .JWT).1 ∧
     ((verify exVerifyEnv .JWT).2 = Outcome.exitCode 2 ↔ exPassResult.errors ≠ []) ∧
     emitOutcome exPassResult =
       emitOutcome { checks := [], warnings := [], errors := exPassResult.errors }) :=
  ⟨rfl, c1_verify_exit_iff_errors exVerifyEnv .JWT
    [Event.readStdin, Event.warnLog trimWarning, Event.checkProof] exPassResult rfl⟩

/-- Claim C9: for every Verify invocation that reaches the aggregation stage
with result `r`, the full event trace ends with the stdout write of the
serialized result (so the result is fully written before any exit is
signalled), a non-empty error sequence yields exit code exactly 2, and an
empty error sequence yields the normal success return. -/
theorem c9_verify_exit_code_two (env : VerifyEnv) (pf : ProofFormat)
    (evs : List Event) (r : VerificationResult)
    (h : verifyCore env pf = (evs, .ok r)) :
    (verify env pf).1 = evs ++ [Event.writeStdout (env.serializeResult r)] ∧
    (r.errors ≠ [] → (verify env pf).2 = Outcome.exitCode 2) ∧
    (r.errors = [] → (verify env pf).2 = Outcome.ok) := by
  unfold verify
  rw [h]
  refine ⟨rfl, ?_, ?_⟩ <;> intro he <;> unfold emitOutcome <;>
    simp [he, List.isEmpty_iff]

/-- Witness for C9 at a concrete LDP invocation with a failing result. -/
theorem c9_witness :
    verifyCore exVerifyEnv .LDP = ([Event.readStdin, Event.checkProof], .ok exFailResult) ∧
    ((verify exVerifyEnv .LDP).1 =
       [Event.readStdin, Event.checkProof] ++
         [Event.writeStdout (exVerifyEnv.serializeResult exFailResult)] ∧
     (exFailResult.errors ≠ [] → (verify exVerifyEnv .LDP).2 = Outcome.exitCode 2) ∧
     (exFailResult.errors = [] → (verify exVerifyEnv .LDP).2 = Outcome.ok)) :=
  ⟨rfl, c9_verify_exit_code_two exVerifyEnv .LDP
    [Event.readStdin, Event.checkProof] exFailResult rfl⟩

/-- Advisory events of a run (the tracing warnings). -/
def Event.isAdvisory : Event → Bool
  | .warnLog _ => true
  | _ => false

/-- Counterexample to claim C2 as stated: with the unrecognized format tag
"ZKP" the issue invocation does abort, but its event trace already contains
the stdin read of the credential, so the abort is not raised before any
I/O. -/
theorem c2_counterexample :
    (issue exIssueEnv (.Other "ZKP")).2 = Outcome.panicked ("Unknown proof format: " ++ "ZKP") ∧
    Event.readStdin ∈ (issue exIssueEnv (.Other "ZKP")).1 := by
  decide

/-- Claim C2 (amended): an unrecognized proof format aborts the invocation
fatally and produces no output; in Verify the abort happens before any event
at all, while in Issue the only events that may precede the abort are reads
of the input channel (the credential is read and parsed before the format
dispatch). -/
theorem c2_unknown_format_aborts (envV : VerifyEnv) (envI : IssueEnv) (tag : String) :
    verify envV (.Other tag) = ([], Outcome.panicked ("Unknown proof format: " ++ tag)) ∧
    (∀ e ∈ (issue envI (.Other tag)).1, e = Event.readStdin) ∧
    (∃ msg, (issue envI (.Other tag)).2 = Outcome.panicked msg) := by
  refine ⟨rfl, ?_, ?_⟩ <;>
    unfold issue <;>
    cases hp : envI.parseCredential envI.stdinContent <;> simp

/-- Witness for the amended C2 at a concrete environment and format tag. -/
theorem c2_witness :
    verify exVerifyEnv (.Other "EIP712") =
      ([], Outcome.panicked ("Unknown proof format: " ++ "EIP712")) ∧
    (∀ e ∈ (issue exIssueEnv (.Other "EIP712")).1, e = Event.readStdin) ∧
    (∃ msg, (issue exIssueEnv (.Other "EIP712")).2 = Outcome.panicked msg) :=
  c2_unknown_format_aborts exVerifyEnv exIssueEnv "EIP712"

/-- Claim C3: in an LDP Verify invocation whose credential parses, structural
validation runs first: if it fails, the run aborts as `MalformedCredential`
with only the stdin read performed (no proof check); if it succeeds, the
proof check runs and the result is emitted; and the proof-check event occurs
in the trace only when structural validation succeeded. -/
theorem c3_ldp_validate_first (env : VerifyEnv) (cred : VerifiableCredential)
    (hp : env.parseCredential env.stdinContent = some cred) :
    (env.validateUnsigned cred = false →
       verify env .LDP = ([Event.readStdin], Outcome.panicked "MalformedCredential")) ∧
    (env.validateUnsigned cred = true →
       verify env .LDP =
         ([Event.readStdin, Event.checkProof,
           Event.writeStdout (env.serializeResult (env.verifyLdp cred))],
          emitOutcome (env.verifyLdp cred))) ∧
    (Event.checkProof ∈ (verify env .LDP).1 → env.validateUnsigned cred = true) := by
  cases hv : env.validateUnsigned cred with
  | false =>
      have hcore : verifyCore env .LDP = ([Event.readStdin], .error "MalformedCredential") := by
        simp [verifyCore, hp, hv]
      have hrun : verify env .LDP = ([Event.readStdin], Outcome.panicked "MalformedCredential") := by
        simp [verify, hcore]
      refine ⟨fun _ => hrun, ?_, ?_⟩
      · intro h2
        exact absurd h2 (by simp)
      · intro hmem
        rw [hrun] at hmem
        simp at hmem
  | true =>
      have hcore : verifyCore env .LDP =
          ([Event.readStdin, Event.checkProof], .ok (env.verifyLdp cred)) := by
        simp [verifyCore, hp, hv]
      have hrun : verify env .LDP =
          ([Event.readStdin, Event.checkProof,
            Event.writeStdout (env.serializeResult (env.verifyLdp cred))],
           emitOutcome (env.verifyLdp cred)) := by
        simp [verify, hcore]
      refine ⟨?_, fun _ => hrun, fun _ => rfl⟩
      intro h2
      exact absurd h2 (by simp)

/-- Witness for C3 at a concrete environment whose validation fails. -/
theorem c3_witness :
    exVerifyEnvBad.parseCredential exVerifyEnvBad.stdinContent = some exCredential ∧
    ((exVerifyEnvBad.validateUnsigned exCredential = false →
        verify exVerifyEnvBad .LDP =
          ([Event.readStdin], Outcome.panicked "MalformedCredential")) ∧
     (exVerifyEnvBad.validateUnsigned exCredential = true →
        verify exVerifyEnvBad .LDP =
          ([Event.readStdin, Event.checkProof,
            Event.writeStdout (exVerifyEnvBad.serializeResult (exVerifyEnvBad.verifyLdp exCredential))],
           emitOutcome (exVerifyEnvBad.verifyLdp exCredential))) ∧
     (Event.checkProof ∈ (verify exVerifyEnvBad .LDP).1 →
        exVerifyEnvBad.validateUnsigned exCredential = true)) :=
  ⟨rfl, c3_ldp_validate_first exVerifyEnvBad exCredential rfl⟩

/-- Shape of a JWT Verify run: the input is read, an advisory is logged
exactly when trimming changed the input, the trimmed input is checked, and
the serialized result of the trimmed input is emitted. -/
theorem verify_jwt_run (env : VerifyEnv) :
    verify env .JWT =
      ([Event.readStdin] ++
        (if env.stdinContent ≠ rustTrim env.stdinContent
         then [Event.warnLog trimWarning] else []) ++
        [Event.checkProof,
         Event.writeStdout (env.serializeResult (env.verifyJwt (rustTrim env.stdinContent)))],
       emitOutcome (env.verifyJwt (rustTrim env.stdinContent))) := by
  simp only [verify, verifyCore]
  simp [List.append_assoc]

/-- Claim C4: a JWT Verify invocation on input `s` has the same outcome and
the same non-advisory event trace as the invocation on `trim(s)`; when
trimming changed the input, the only difference is the non-fatal advisory
logged in the run on `s`. -/
theorem c4_jwt_trim_invariance (env : VerifyEnv) (s : List Char) :
    (verify { env with stdinContent := s } .JWT).2 =
      (verify { env with stdinContent := rustTrim s } .JWT).2 ∧
    (verify { env with stdinContent := s } .JWT).1.filter (fun e => ! e.isAdvisory) =
      (verify { env with stdinContent := rustTrim s } .JWT).1.filter (fun e => ! e.isAdvisory) ∧
    (rustTrim s ≠ s →
      Event.warnLog trimWarning ∈ (verify { env with stdinContent := s } .JWT).1) := by
  have h1 := verify_jwt_run { env with stdinContent := s }
  have h2 := verify_jwt_run { env with stdinContent := rustTrim s }
  simp only at h1 h2
  rw [rustTrim_idem s] at h2
  have hfilt : ∀ (c : Prop) (inst : Decidable c),
      (if c then [Event.warnLog trimWarning] else []).filter
        (fun e => ! Event.isAdvisory e) = [] := by
    intro c inst
    split <;> simp [Event.isAdvisory]
  refine ⟨?_, ?_, ?_⟩
  · rw [h1, h2]
  · rw [h1, h2]
    simp [List.filter_append, hfilt, Event.isAdvisory]
  · intro hne
    have hne2 : s ≠ rustTrim s := fun hc => hne hc.symm
    rw [h1, if_pos hne2]
    simp

/-- Witness for C4 at a concrete whitespace-padded input. -/
theorem c4_witness :
    (verify { exVerifyEnv with stdinContent := "  token ".toList } .JWT).2 =
      (verify { exVerifyEnv with stdinContent := rustTrim "  token ".toList } .JWT).2 ∧
    (verify { exVerifyEnv with stdinContent := "  token ".toList } .JWT).1.filter
        (fun e => ! e.isAdvisory) =
      (verify { exVerifyEnv with stdinContent := rustTrim "  token ".toList } .JWT).1.filter
        (fun e => ! e.isAdvisory) ∧
    (rustTrim "  token ".toList ≠ "  token ".toList →
      Event.warnLog trimWarning ∈
        (verify { exVerifyEnv with stdinContent := "  token ".toList } .JWT).1) :=
  c4_jwt_trim_invariance exVerifyEnv "  token ".toList

/-- Claim C5: a JWT Issue invocation with ssh-agent key delivery (and a
credential that parses, so the format dispatch is reached) terminates in the
NotImplemented panic of `todo!` with only the stdin read in its trace: no
signing collaborator is invoked and no output is produced. -/
theorem c5_jwt_ssh_agent_not_implemented (env : IssueEnv) (cred : VerifiableCredential)
    (hp : env.parseCredential env.stdinContent = some cred)
    (hs : env.sshAgent = true) :
    issue env .JWT =
      ([Event.readStdin],
       Outcome.panicked "not yet implemented: ssh-agent for JWT not implemented") := by
  simp [issue, hp, hs]

/-- Witness for C5 at a concrete ssh-agent environment. -/
theorem c5_witness :
    exIssueEnvAgent.parseCredential exIssueEnvAgent.stdinContent = some exCredential ∧
    exIssueEnvAgent.sshAgent = true ∧
    issue exIssueEnvAgent .JWT =
      ([Event.readStdin],
       Outcome.panicked "not yet implemented: ssh-agent for JWT not implemented") :=
  ⟨rfl, rfl, c5_jwt_ssh_agent_not_implemented exIssueEnvAgent exCredential rfl rfl⟩

/-- Claim C6: a Query invocation with an empty selector list returns
successfully, with the no-selectors notice on stderr as its only event: no
canonicalization, no parsing, no output beyond the notice. -/
theorem c6_empty_selectors_notice (env : QueryEnv) :
    get_nquad_positions env [] =
      ([Event.writeStderr "No selectors given"], Outcome.ok) := by
  rfl

/-- Claim C7: a successful Issue invocation emits, for the LDP format, the
serialized input credential carrying exactly the one newly generated proof
appended to its proof list with the body unchanged; and for the JWT format a
single opaque token string. -/
theorem c7_issue_output_shape (env : IssueEnv) (cred : VerifiableCredential)
    (proof jwt : String)
    (hp : env.parseCredential env.stdinContent = some cred)
    (hL : env.generateProof cred = some proof)
    (ha : env.sshAgent = false)
    (hJ : env.generateJwt cred = some jwt) :
    issue env .LDP =
      ([Event.readStdin, Event.sign,
        Event.writeStdout
          (env.serializeCredential { body := cred.body, proofs := cred.proofs ++ [proof] })],
       Outcome.ok) ∧
    issue env .JWT = ([Event.readStdin, Event.sign, Event.writeStdout jwt], Outcome.ok) := by
  constructor
  · simp [issue, hp, hL, VerifiableCredential.add_proof]
  · simp [issue, hp, ha, hJ]

/-- Witness for C7 at a concrete issue environment. -/
theorem c7_witness :
    exIssueEnv.parseCredential exIssueEnv.stdinContent = some exCredential ∧
    exIssueEnv.generateProof exCredential = some "new-proof" ∧
    exIssueEnv.sshAgent = false ∧
    exIssueEnv.generateJwt exCredential = some "header.payload.sig" ∧
    (issue exIssueEnv .LDP =
       ([Event.readStdin, Event.sign,
         Event.writeStdout
           (exIssueEnv.serializeCredential
             { body := exCredential.body, proofs := exCredential.proofs ++ ["new-proof"] })],
        Outcome.ok) ∧
     issue exIssueEnv .JWT =
       ([Event.readStdin, Event.sign, Event.writeStdout "header.payload.sig"], Outcome.ok)) :=
  ⟨rfl, rfl, rfl, rfl,
   c7_issue_output_shape exIssueEnv exCredential "new-proof" "header.payload.sig"
     rfl rfl rfl rfl⟩

/-- Claim C8: a Query invocation with a non-empty selector list whose
credential parses and whose selectors resolve emits exactly the resolved
positions, each rendered in decimal, in resolver order, separated by single
spaces (with the newline of `println!`), and returns successfully. -/
theorem c8_query_output (env : QueryEnv) (selectors : List String)
    (cred : VerifiableCredential) (positions : List Nat)
    (hs : selectors ≠ [])
    (hp : env.parseCredential env.stdinContent = some cred)
    (hq : env.nquadPositions cred selectors = .ok positions) :
    get_nquad_positions env selectors =
      ([Event.readStdin,
        Event.writeStdout
          (String.intercalate " " (positions.map (fun p => Nat.repr p)) ++ "\n")],
       Outcome.ok) := by
  have hlen : ¬ selectors.length = 0 := by
    simpa [List.length_eq_zero] using hs
  simp [get_nquad_positions, hlen, hp, hq]

/-- Witness for C8 at a concrete query environment with one selector. -/
theorem c8_witness :
    (["credentialSubject.name"] : List String) ≠ [] ∧
    exQueryEnv.parseCredential exQueryEnv.stdinContent = some exCredential ∧
    exQueryEnv.nquadPositions exCredential ["credentialSubject.name"] = .ok [3, 1, 4] ∧
    get_nquad_positions exQueryEnv ["credentialSubject.name"] =
      ([Event.readStdin,
        Event.writeStdout
          (String.intercalate " " ([3, 1, 4].map (fun p => Nat.repr p)) ++ "\n")],
       Outcome.ok) :=
  ⟨by decide, rfl, rfl,
   c8_query_output exQueryEnv ["credentialSubject.name"] exCredential [3, 1, 4]
     (by decide) rfl rfl⟩

/-- Claim C10: a Query invocation with an empty selector list never reads the
input channel and returns successfully, for every environment, in particular
whatever the input channel holds and even when parsing it would fail. -/
theorem c10_empty_selectors_no_read (env : QueryEnv) :
    (get_nquad_positions env []).1.contains Event.readStdin = false ∧
    (get_nquad_positions env []).2 = Outcome.ok := by
  constructor <;> rfl

end DidkitCli
